import Mathlib

/-!
Shallow embedding of the WebSocket frame codec (`src/frame.rs`):
frame parsing with fragmentation tracking, close-frame validation,
and response serialization. Bytes are modelled as `Nat` values,
byte buffers as `List Nat`, the cursor as the remaining suffix of
the input list, Rust `Result` as `Except String`, and a potential
panic (out-of-bounds slice index) as the `none` case of `Option`.
-/

namespace WS

/-- UTF-8 validity of a byte sequence per RFC 3629, modelling the success of
Rust `String::from_utf8` / `str::from_utf8`. -/
def utf8Cont (b : Nat) : Bool := 0x80 ≤ b && b ≤ 0xBF

/-- Validator for UTF-8 byte sequences (model of Rust std UTF-8 validation). -/
def utf8Valid : List Nat → Bool
  | [] => true
  | b :: rest =>
    if b ≤ 0x7F then utf8Valid rest
    else if 0xC2 ≤ b && b ≤ 0xDF then
      match rest with
      | b1 :: r => utf8Cont b1 && utf8Valid r
      | [] => false
    else if b = 0xE0 then
      match rest with
      | b1 :: b2 :: r => (0xA0 ≤ b1 && b1 ≤ 0xBF) && utf8Cont b2 && utf8Valid r
      | _ => false
    else if (0xE1 ≤ b && b ≤ 0xEC) || b = 0xEE || b = 0xEF then
      match rest with
      | b1 :: b2 :: r => utf8Cont b1 && utf8Cont b2 && utf8Valid r
      | _ => false
    else if b = 0xED then
      match rest with
      | b1 :: b2 :: r => (0x80 ≤ b1 && b1 ≤ 0x9F) && utf8Cont b2 && utf8Valid r
      | _ => false
    else if b = 0xF0 then
      match rest with
      | b1 :: b2 :: b3 :: r =>
          (0x90 ≤ b1 && b1 ≤ 0xBF) && utf8Cont b2 && utf8Cont b3 && utf8Valid r
      | _ => false
    else if 0xF1 ≤ b && b ≤ 0xF3 then
      match rest with
      | b1 :: b2 :: b3 :: r => utf8Cont b1 && utf8Cont b2 && utf8Cont b3 && utf8Valid r
      | _ => false
    else if b = 0xF4 then
      match rest with
      | b1 :: b2 :: b3 :: r =>
          (0x80 ≤ b1 && b1 ≤ 0x8F) && utf8Cont b2 && utf8Cont b3 && utf8Valid r
      | _ => false
    else false

/-- `enum StatusCode` in `frame.rs`. -/
inductive StatusCode
  | Normal
  | ProtocolError
  | InvalidDataFormat
deriving DecidableEq, Repr

/-- The discriminant values of `StatusCode` (`Normal = 1000`, etc.),
used by `Frame::response` through `status_code as u16`. -/
def StatusCode.val : StatusCode → Nat
  | .Normal => 1000
  | .ProtocolError => 1002
  | .InvalidDataFormat => 1007

/-- `enum FragmentedMessage` in `frame.rs`: the fragmentation tracker. -/
inductive FragmentedMessage
  | Text (messages : List (List Nat))
  | Binary (messages : List (List Nat))
deriving DecidableEq, Repr

/-- `enum Frame` in `frame.rs`: the decoded logical unit. A Rust `String`
payload is modelled by its UTF-8 bytes. -/
inductive Frame
  | Continuation (m : Option FragmentedMessage)
  | Text (message : List Nat)
  | Binary (message : List Nat)
  | Close (status_code : StatusCode)
  | Ping (message : List Nat)
  | Pong (message : List Nat)
deriving DecidableEq, Repr

/-- `FragmentedMessage::is_empty`. -/
def FragmentedMessage.is_empty : FragmentedMessage → Bool
  | .Text messages => messages.isEmpty
  | .Binary messages => messages.isEmpty

/-- `FragmentedMessage::push`. -/
def FragmentedMessage.push : FragmentedMessage → List Nat → FragmentedMessage
  | .Text messages, message => .Text (messages ++ [message])
  | .Binary messages, message => .Binary (messages ++ [message])

/-- `FragmentedMessage::invalid`: text whose concatenated fragments are not
valid UTF-8. -/
def FragmentedMessage.invalid : FragmentedMessage → Bool
  | .Text messages => !utf8Valid messages.flatten
  | .Binary _ => false

/-- Shape discriminator of the tracker (is it the `Text` variant?). -/
def FragmentedMessage.isTextShape : FragmentedMessage → Bool
  | .Text _ => true
  | .Binary _ => false

/-- `get_u8` in `frame.rs`: one byte from the cursor, or an error. -/
def get_u8 : List Nat → Except String (Nat × List Nat)
  | [] => .error "Cannot get u8"
  | b :: rest => .ok (b, rest)

/-- `get_u16` in `frame.rs`: big-endian 16-bit read. -/
def get_u16 : List Nat → Except String (Nat × List Nat)
  | b0 :: b1 :: rest => .ok (b0 * 256 + b1, rest)
  | _ => .error "Cannot get u16"

/-- `get_u64` in `frame.rs`: big-endian 64-bit read. -/
def get_u64 : List Nat → Except String (Nat × List Nat)
  | b0 :: b1 :: b2 :: b3 :: b4 :: b5 :: b6 :: b7 :: rest =>
      .ok (((((((b0 * 256 + b1) * 256 + b2) * 256 + b3) * 256 + b4) * 256 + b5)
              * 256 + b6) * 256 + b7, rest)
  | _ => .error "Cannot get u64"

/-- `Frame::payload_length`: extended payload-length decoding. -/
def Frame.payload_length (src : List Nat) (payload_length : Nat) :
    Except String (Nat × List Nat) :=
  if payload_length ≤ 125 then .ok (payload_length, src)
  else if payload_length = 126 then get_u16 src
  else if payload_length = 127 then get_u64 src
  else .error "Invalid length"

/-- `Frame::mask`: the 4-byte masking key. -/
def Frame.mask : List Nat → Except String (List Nat × List Nat)
  | m0 :: m1 :: m2 :: m3 :: rest => .ok ([m0, m1, m2, m3], rest)
  | _ => .error "Cannot get the mask"

/-- `Frame::decoded_message`: take `payload_length` bytes and unmask them with
`val ^ mask[i % 4]`. -/
def Frame.decoded_message (src : List Nat) (payload_length : Nat)
    (mask : List Nat) : Except String (List Nat × List Nat) :=
  if src.length < payload_length then .error "Cannot decode message"
  else .ok (((src.take payload_length).enum.map
               fun iv => iv.2 ^^^ mask.getD (iv.1 % 4) 0),
            src.drop payload_length)

/-- The close-code allow-list `valid` in `Frame::parse_close_frame`. -/
def closeAllowList : List Nat :=
  [1000, 1001, 1002, 1003, 1007, 1008, 1009, 1010, 1011, 3000, 3999, 4000, 4999]

/-- `Frame::parse_close_frame`. The slice expressions `&message[0..2]` and
`&message[2..]` panic in Rust when `message.len() < 2`; that case is modelled
as `none`. -/
def Frame.parse_close_frame (message : List Nat) : Option (Except String Frame) :=
  if message.length < 2 then none
  else
    let status_code := message.getD 0 0 * 256 + message.getD 1 0
    if !(closeAllowList.contains status_code) then
      some (.ok (.Close .ProtocolError))
    else if utf8Valid (message.drop 2) then some (.ok (.Close .Normal))
    else some (.ok (.Close .ProtocolError))

/-- The opcode/FIN dispatch of `Frame::parse` (the two `match opcode` blocks,
lines 87-118 of `frame.rs`), acting on the already decoded and unmasked
payload. Returns the decoded frame and the updated tracker. -/
def Frame.parse_dispatch (fin : Bool) (opcode : Nat) (payload_length : Nat)
    (message : List Nat) (fragmented_message : FragmentedMessage) :
    Option (Except String (Frame × FragmentedMessage)) :=
  if !fin then
    if opcode = 0x0 ∧ fragmented_message.is_empty then
      some (.ok (.Close .ProtocolError, fragmented_message))
    else if opcode = 0x0 ∨ opcode = 0x1 then
      some (.ok (.Continuation none, fragmented_message.push message))
    else if opcode = 0x2 then
      some (.ok (.Continuation none, (FragmentedMessage.Binary []).push message))
    else
      some (.ok (.Close .ProtocolError, fragmented_message))
  else
    if opcode = 0x0 ∧ fragmented_message.is_empty then
      some (.ok (.Close .ProtocolError, fragmented_message))
    else if opcode = 0x0 ∧ fragmented_message.invalid then
      some (.ok (.Close .InvalidDataFormat, fragmented_message))
    else if opcode = 0x0 then
      some (.ok (.Continuation (some (fragmented_message.push message)),
                 fragmented_message.push message))
    else if (opcode = 0x1 ∨ opcode = 0x2) ∧ !fragmented_message.is_empty then
      some (.ok (.Close .ProtocolError, fragmented_message))
    else if opcode = 0x1 then
      if utf8Valid message then some (.ok (.Text message, fragmented_message))
      else some (.ok (.Close .InvalidDataFormat, fragmented_message))
    else if opcode = 0x2 then
      some (.ok (.Binary message, fragmented_message))
    else if opcode = 0x8 ∧ payload_length = 0 then
      some (.ok (.Close .Normal, fragmented_message))
    else if opcode = 0x8 ∧ 2 ≤ payload_length ∧ payload_length ≤ 125 then
      (Frame.parse_close_frame message).map fun r =>
        r.map fun f => (f, fragmented_message)
    else if opcode = 0x9 ∧ payload_length ≤ 125 then
      some (.ok (.Ping message, fragmented_message))
    else if opcode = 0xA then
      some (.ok (.Pong message, fragmented_message))
    else
      some (.ok (.Close .ProtocolError, fragmented_message))

/-- `Frame::parse`: header and flag extraction, RSV/MASK validation, length
extension, unmasking, then opcode dispatch. The result carries the decoded
frame, the updated tracker, and the bytes remaining past the consumed frame;
`none` models a panic (which `parse` never actually does, see below). -/
def Frame.parse (src : List Nat) (fragmented_message : FragmentedMessage) :
    Option (Except String (Frame × FragmentedMessage × List Nat)) :=
  match get_u8 src with
  | .error e => some (.error e)
  | .ok (f_byte, src1) =>
    let fin : Bool := f_byte &&& 0x80 != 0
    let rsv : Bool := f_byte &&& 0x70 != 0
    let opcode : Nat := f_byte &&& 0x0F
    match get_u8 src1 with
    | .error e => some (.error e)
    | .ok (s_byte, src2) =>
      let mask : Bool := s_byte &&& 0x80 != 0
      let payload_length : Nat := s_byte &&& 0x7F
      if rsv || !mask then
        some (.ok (.Close .ProtocolError, fragmented_message, src2))
      else
        match Frame.payload_length src2 payload_length with
        | .error e => some (.error e)
        | .ok (payload_length, src3) =>
          match Frame.mask src3 with
          | .error e => some (.error e)
          | .ok (mask, src4) =>
            match Frame.decoded_message src4 payload_length mask with
            | .error e => some (.error e)
            | .ok (message, src5) =>
              (Frame.parse_dispatch fin opcode payload_length message
                  fragmented_message).map
                fun r => r.map fun fr => (fr.1, fr.2, src5)

/-- Big-endian bytes of `n as u16`. -/
def u16_be (n : Nat) : List Nat := [n / 256 % 256, n % 256]

/-- Big-endian bytes of `n as u64`. -/
def u64_be (n : Nat) : List Nat :=
  [n / 256 ^ 7 % 256, n / 256 ^ 6 % 256, n / 256 ^ 5 % 256, n / 256 ^ 4 % 256,
   n / 256 ^ 3 % 256, n / 256 ^ 2 % 256, n / 256 % 256, n % 256]

/-- `Frame::payload_length_response`: serialize a payload length. -/
def Frame.payload_length_response (payload_length : Nat) : List Nat :=
  if payload_length ≤ 125 then [payload_length]
  else if payload_length ≤ 65535 then 126 :: u16_be payload_length
  else 127 :: u64_be payload_length

/-- `FragmentedMessage::response`: serialize a reassembled message. -/
def FragmentedMessage.response (fm : FragmentedMessage) : List Nat :=
  match fm with
  | .Text messages =>
      0x81 :: (Frame.payload_length_response messages.flatten.length ++ messages.flatten)
  | .Binary messages =>
      0x82 :: (Frame.payload_length_response messages.flatten.length ++ messages.flatten)

/-- The byte vector built by `Frame::response` before the final emptiness
test (`[]` for the `_ => {}` arm). -/
def Frame.response_bytes : Frame → List Nat
  | .Continuation (some message) => message.response
  | .Text message => 0x81 :: (Frame.payload_length_response message.length ++ message)
  | .Binary message => 0x82 :: (Frame.payload_length_response message.length ++ message)
  | .Close status_code => [0x88, 0x02] ++ u16_be status_code.val
  | .Ping message => 0x8A :: ((message.length % 256) :: message)
  | _ => []

/-- `Frame::response`: `Some(bytes)` when non-empty, else `None`. -/
def Frame.response (f : Frame) : Option (List Nat) :=
  if f.response_bytes.isEmpty then none else some f.response_bytes

/-- The decoder's reading of the payload-length field from a buffer: the low
7 bits of the first byte, then `Frame::payload_length` for the extension. -/
def decode_payload_length (bytes : List Nat) : Except String (Nat × List Nat) :=
  match get_u8 bytes with
  | .error e => .error e
  | .ok (b, rest) => Frame.payload_length rest (b &&& 0x7F)

end WS

namespace WS

/-! Theorems about the embedded codec, one per claim. -/

/-- C1: starting from an empty fragmentation tracker, the three masked frames
[FIN=0, opcode=0x1, "Hel"], [FIN=0, opcode=0x0, "lo, "],
[FIN=1, opcode=0x0, "world!"] (RSV=0, zero mask key) parse, in order, to
`Continuation(None)`, `Continuation(None)`, and `Continuation(Some(..))`
carrying a reassembled text message whose fragments concatenate to
"Hello, world!". -/
theorem c1_fragmented_text_reassembly :
    Frame.parse [0x01, 0x83, 0, 0, 0, 0, 72, 101, 108]
        (FragmentedMessage.Text []) =
      some (.ok (.Continuation none, .Text [[72, 101, 108]], [])) ∧
    Frame.parse [0x00, 0x84, 0, 0, 0, 0, 108, 111, 44, 32]
        (FragmentedMessage.Text [[72, 101, 108]]) =
      some (.ok (.Continuation none,
                 .Text [[72, 101, 108], [108, 111, 44, 32]], [])) ∧
    Frame.parse [0x80, 0x86, 0, 0, 0, 0, 119, 111, 114, 108, 100, 33]
        (FragmentedMessage.Text [[72, 101, 108], [108, 111, 44, 32]]) =
      some (.ok (.Continuation (some (.Text
              [[72, 101, 108], [108, 111, 44, 32], [119, 111, 114, 108, 100, 33]])),
            .Text [[72, 101, 108], [108, 111, 44, 32], [119, 111, 114, 108, 100, 33]],
            [])) ∧
    ([[72, 101, 108], [108, 111, 44, 32],
      [119, 111, 114, 108, 100, 33]] : List (List Nat)).flatten =
      "Hello, world!".data.map Char.toNat :=
  ⟨rfl, rfl, rfl, by decide⟩

/-- C10: a frame sequence exists on which `parse` returns
`Continuation(Some(..))` with a text-shaped reassembled message whose
concatenated fragments are NOT valid UTF-8: the UTF-8 check on the completing
continuation frame runs before the final fragment is appended, so a final
fragment that is itself invalid UTF-8 (here the lone byte 0xFF) is accepted
and included. -/
theorem c10_final_fragment_escapes_utf8_check :
    Frame.parse [0x01, 0x81, 0, 0, 0, 0, 72] (FragmentedMessage.Text []) =
      some (.ok (.Continuation none, .Text [[72]], [])) ∧
    Frame.parse [0x80, 0x81, 0, 0, 0, 0, 0xFF] (FragmentedMessage.Text [[72]]) =
      some (.ok (.Continuation (some (.Text [[72], [0xFF]])),
                 .Text [[72], [0xFF]], [])) ∧
    (FragmentedMessage.Text [[72], [0xFF]]).isTextShape = true ∧
    utf8Valid ([[72], [0xFF]] : List (List Nat)).flatten = false :=
  ⟨rfl, rfl, rfl, rfl⟩

/-- C6 counterexample: a final continuation frame (FIN=1, opcode 0x0, payload
"!") completing the in-progress text message ["H"] returns
`Continuation(Some(..))`, but the tracker passed by mutable reference is NOT
drained afterwards: it still holds both fragments. -/
theorem c6_tracker_not_drained_counterexample :
    Frame.parse [0x80, 0x81, 0, 0, 0, 0, 33] (FragmentedMessage.Text [[72]]) =
      some (.ok (.Continuation (some (.Text [[72], [33]])),
                 .Text [[72], [33]], [])) ∧
    (FragmentedMessage.Text [[72], [33]]).is_empty = false :=
  ⟨rfl, rfl⟩

/-- C6 amended: when a final frame (FIN=1, opcode 0x0) completes a fragmented
message, the reassembled message is handed to the caller as a new (cloned)
value equal to the updated tracker, but the tracker is not drained: after the
call it retains all fragments, including the final one (resetting it is left
to the caller). -/
theorem c6_completion_clones_and_retains (payload_length : Nat)
    (message : List Nat) (fm : FragmentedMessage)
    (hne : fm.is_empty = false) (hva : fm.invalid = false) :
    Frame.parse_dispatch true 0x0 payload_length message fm =
      some (.ok (.Continuation (some (fm.push message)), fm.push message)) ∧
    (fm.push message).is_empty = false := by
  constructor
  · simp [Frame.parse_dispatch, hne, hva]
  · cases fm <;> simp [FragmentedMessage.push, FragmentedMessage.is_empty]

/-- C6 amended, witness at the tracker ["H"] and final fragment "!". -/
theorem c6_completion_clones_and_retains_witness :
    Frame.parse_dispatch true 0x0 1 [33] (FragmentedMessage.Text [[72]]) =
      some (.ok (.Continuation (some (.Text [[72], [33]])),
                 .Text [[72], [33]])) ∧
    (FragmentedMessage.Text [[72], [33]]).is_empty = false :=
  c6_completion_clones_and_retains 1 [33] (FragmentedMessage.Text [[72]]) rfl rfl

/-- C7 counterexample: a non-final first fragment with opcode 0x1 arriving at
an empty binary-shaped tracker does NOT switch the tracker to the
accumulating-text shape: the fragment is appended into the binary shape. -/
theorem c7_text_opcode_keeps_shape_counterexample :
    Frame.parse [0x01, 0x81, 0, 0, 0, 0, 65] (FragmentedMessage.Binary []) =
      some (.ok (.Continuation none, .Binary [[65]], [])) ∧
    (FragmentedMessage.Binary [[65]]).isTextShape = false :=
  ⟨rfl, rfl⟩

/-- C7 amended: on a non-final first fragment (FIN=0, tracker empty),
opcode 0x2 resets the tracker to the accumulating-binary shape holding just
this payload, while opcode 0x1 merely appends the payload to the tracker in
whatever shape it already has (the shape is preserved, never switched to
text). -/
theorem c7_first_fragment_shapes (payload_length : Nat) (message : List Nat)
    (fm : FragmentedMessage) (hempty : fm.is_empty = true) :
    Frame.parse_dispatch false 0x2 payload_length message fm =
      some (.ok (.Continuation none, .Binary [message])) ∧
    Frame.parse_dispatch false 0x1 payload_length message fm =
      some (.ok (.Continuation none, fm.push message)) ∧
    (fm.push message).isTextShape = fm.isTextShape := by
  refine ⟨?_, ?_, ?_⟩
  · simp [Frame.parse_dispatch, FragmentedMessage.push]
  · simp [Frame.parse_dispatch]
  · cases fm <;> simp [FragmentedMessage.push, FragmentedMessage.isTextShape]

/-- C7 amended, witness at an empty binary-shaped tracker. -/
theorem c7_first_fragment_shapes_witness :
    Frame.parse_dispatch false 0x2 1 [66] (FragmentedMessage.Binary []) =
      some (.ok (.Continuation none, .Binary [[66]])) ∧
    Frame.parse_dispatch false 0x1 1 [66] (FragmentedMessage.Binary []) =
      some (.ok (.Continuation none, .Binary [[66]])) ∧
    (FragmentedMessage.Binary [[66]]).isTextShape =
      (FragmentedMessage.Binary []).isTextShape :=
  c7_first_fragment_shapes 1 [66] (FragmentedMessage.Binary []) rfl

end WS

namespace WS

/-- C2: for every close-frame payload of length in [2,125], the validator
returns `Close(ProtocolError)` when the big-endian 16-bit status code is not
in the allow-list, `Close(ProtocolError)` when the code is allowed but the
reason bytes are not valid UTF-8, and `Close(Normal)` when both checks pass —
the peer's status code is never carried in the result. -/
theorem c2_close_frame_validator (message : List Nat)
    (h2 : 2 ≤ message.length) (h125 : message.length ≤ 125) :
    (closeAllowList.contains (message.getD 0 0 * 256 + message.getD 1 0) = false →
        Frame.parse_close_frame message = some (.ok (.Close .ProtocolError))) ∧
    (closeAllowList.contains (message.getD 0 0 * 256 + message.getD 1 0) = true →
        utf8Valid (message.drop 2) = false →
        Frame.parse_close_frame message = some (.ok (.Close .ProtocolError))) ∧
    (closeAllowList.contains (message.getD 0 0 * 256 + message.getD 1 0) = true →
        utf8Valid (message.drop 2) = true →
        Frame.parse_close_frame message = some (.ok (.Close .Normal))) := by
  have hlt : ¬ message.length < 2 := by omega
  refine ⟨?_, ?_, ?_⟩
  · intro hc
    simp only [Frame.parse_close_frame]
    rw [if_neg hlt, hc]
    simp
  · intro hc hu
    simp only [Frame.parse_close_frame]
    rw [if_neg hlt, hc, hu]
    simp
  · intro hc hu
    simp only [Frame.parse_close_frame]
    rw [if_neg hlt, hc, hu]
    simp

/-- C2 witness: status code 1000 with reason "hi" validates to
`Close(Normal)`. -/
theorem c2_close_frame_validator_witness :
    2 ≤ ([3, 232, 104, 105] : List Nat).length ∧
    Frame.parse_close_frame [3, 232, 104, 105] = some (.ok (.Close .Normal)) :=
  ⟨by decide,
   (c2_close_frame_validator [3, 232, 104, 105] (by decide) (by decide)).2.2 rfl rfl⟩

/-- C3: on a final close frame (FIN=1, opcode 0x8) that passed the header
checks, payload length 0 yields `Close(Normal)`, payload length 1 or greater
than 125 yields `Close(ProtocolError)`, and payload length in [2,125] yields
the close-frame validator's result. -/
theorem c3_final_close_dispatch (payload_length : Nat) (message : List Nat)
    (fm : FragmentedMessage) :
    (payload_length = 0 →
        Frame.parse_dispatch true 0x8 payload_length message fm =
          some (.ok (.Close .Normal, fm))) ∧
    (payload_length = 1 ∨ 125 < payload_length →
        Frame.parse_dispatch true 0x8 payload_length message fm =
          some (.ok (.Close .ProtocolError, fm))) ∧
    (2 ≤ payload_length → payload_length ≤ 125 →
        Frame.parse_dispatch true 0x8 payload_length message fm =
          (Frame.parse_close_frame message).map fun r =>
            r.map fun f => (f, fm)) := by
  refine ⟨?_, ?_, ?_⟩
  · intro h
    subst h
    simp [Frame.parse_dispatch]
  · intro h
    have h0 : payload_length ≠ 0 := by omega
    have hr : ¬ (2 ≤ payload_length ∧ payload_length ≤ 125) := by omega
    simp [Frame.parse_dispatch, h0, hr]
  · intro ha hb
    have h0 : payload_length ≠ 0 := by omega
    simp [Frame.parse_dispatch, h0, ha, hb]

/-- C3 witness: the three length classes at concrete inputs (lengths 0, 1,
and 2 with status code 1000). -/
theorem c3_final_close_dispatch_witness :
    Frame.parse_dispatch true 0x8 0 [] (FragmentedMessage.Text []) =
      some (.ok (.Close .Normal, FragmentedMessage.Text [])) ∧
    Frame.parse_dispatch true 0x8 1 [9] (FragmentedMessage.Text []) =
      some (.ok (.Close .ProtocolError, FragmentedMessage.Text [])) ∧
    Frame.parse_dispatch true 0x8 2 [3, 232] (FragmentedMessage.Text []) =
      (Frame.parse_close_frame [3, 232]).map fun r =>
        r.map fun f => (f, FragmentedMessage.Text []) :=
  ⟨(c3_final_close_dispatch 0 [] _).1 rfl,
   (c3_final_close_dispatch 1 [9] _).2.1 (Or.inl rfl),
   (c3_final_close_dispatch 2 [3, 232] _).2.2 (by decide) (by decide)⟩

/-- C4: whenever the first two header bytes are readable and either an RSV
bit (bits 4-6 of byte 0) is set or the MASK bit (bit 7 of byte 1) is clear,
`parse` returns the successful decode `Close(ProtocolError)` — never an I/O
error — regardless of FIN, opcode, remaining input, or tracker state. -/
theorem c4_rsv_or_unmasked_protocol_error (b0 b1 : Nat) (rest : List Nat)
    (fm : FragmentedMessage) (h : b0 &&& 0x70 ≠ 0 ∨ b1 &&& 0x80 = 0) :
    Frame.parse (b0 :: b1 :: rest) fm =
      some (.ok (.Close .ProtocolError, fm, rest)) := by
  have hcond : ((b0 &&& 0x70 != 0) || !(b1 &&& 0x80 != 0)) = true := by
    rcases h with h | h
    · simp [bne_iff_ne, h]
    · simp [h]
  simp [Frame.parse, get_u8, hcond]

/-- C4 witness: an RSV violation (byte 0 = 0xF1) with the MASK bit also
clear decodes to `Close(ProtocolError)`. -/
theorem c4_rsv_or_unmasked_protocol_error_witness :
    Frame.parse [0xF1, 0x00] (FragmentedMessage.Text []) =
      some (.ok (.Close .ProtocolError, FragmentedMessage.Text [], [])) :=
  c4_rsv_or_unmasked_protocol_error 0xF1 0x00 [] _ (Or.inl (by decide))

end WS

namespace WS

/-- C5: serializing any payload length with the encoder's
`payload_length_response` and decoding the result with the decoder's
length logic (low 7 bits of the first byte, then the 16-bit or 64-bit
big-endian extension) recovers the length exactly, in all three classes. -/
theorem c5_payload_length_roundtrip (L : Nat) (h : L < 2 ^ 64) :
    decode_payload_length (Frame.payload_length_response L) = .ok (L, []) := by
  by_cases h125 : L ≤ 125
  · have hland : L &&& 127 = L := by
      have hb : ∀ x < 128, x &&& 127 = x := by decide
      exact hb L (by omega)
    simp [Frame.payload_length_response, decode_payload_length, get_u8,
          Frame.payload_length, h125, hland]
  · by_cases h655 : L ≤ 65535
    · have henc : Frame.payload_length_response L = 126 :: u16_be L := by
        unfold Frame.payload_length_response
        rw [if_neg h125, if_pos h655]
      have hdec : ∀ rest, decode_payload_length (126 :: rest) = get_u16 rest :=
        fun rest => rfl
      rw [henc, hdec, u16_be]
      simp only [get_u16, Except.ok.injEq, Prod.mk.injEq, and_true]
      omega
    · have h64 : L < 18446744073709551616 := by
        have e : (2 : Nat) ^ 64 = 18446744073709551616 := by norm_num
        omega
      have henc : Frame.payload_length_response L = 127 :: u64_be L := by
        unfold Frame.payload_length_response
        rw [if_neg h125, if_neg h655]
      have hdec : ∀ rest, decode_payload_length (127 :: rest) = get_u64 rest :=
        fun rest => rfl
      rw [henc, hdec, u64_be]
      simp only [get_u64, Except.ok.injEq, Prod.mk.injEq, and_true]
      norm_num
      omega

/-- C5 witness: the boundary length 65536 round-trips through the 64-bit
class. -/
theorem c5_payload_length_roundtrip_witness :
    decode_payload_length (Frame.payload_length_response 65536) =
      .ok (65536, []) :=
  c5_payload_length_roundtrip 65536 (by norm_num)

/-- The close-frame validator cannot hit its panic case (`none`) when the
payload holds at least the two status-code bytes. -/
theorem parse_close_frame_ne_none (message : List Nat)
    (h : 2 ≤ message.length) : Frame.parse_close_frame message ≠ none := by
  unfold Frame.parse_close_frame
  rw [if_neg (by omega)]
  dsimp only
  split_ifs <;> simp

/-- `decoded_message` returns exactly `payload_length` unmasked bytes. -/
theorem decoded_message_length (src : List Nat) (payload_length : Nat)
    (mask msg rest : List Nat)
    (h : Frame.decoded_message src payload_length mask = .ok (msg, rest)) :
    msg.length = payload_length := by
  unfold Frame.decoded_message at h
  split at h
  · exact absurd h (by simp)
  · rename_i hlen
    simp only [Except.ok.injEq, Prod.mk.injEq] at h
    obtain ⟨h1, -⟩ := h
    subst h1
    simp only [List.length_map, List.enum_length, List.length_take]
    omega

set_option maxHeartbeats 2000000 in
/-- The opcode dispatch never panics when the payload actually holds
`payload_length` bytes. -/
theorem parse_dispatch_ne_none (fin : Bool) (opcode payload_length : Nat)
    (message : List Nat) (fm : FragmentedMessage)
    (h : payload_length ≤ message.length) :
    Frame.parse_dispatch fin opcode payload_length message fm ≠ none := by
  intro hx
  unfold Frame.parse_dispatch at hx
  by_cases hfin : (!fin) = true
  · rw [if_pos hfin] at hx
    by_cases c1 : opcode = 0 ∧ fm.is_empty = true
    · rw [if_pos c1] at hx
      exact Option.noConfusion hx
    · rw [if_neg c1] at hx
      by_cases c2 : opcode = 0 ∨ opcode = 1
      · rw [if_pos c2] at hx
        exact Option.noConfusion hx
      · rw [if_neg c2] at hx
        by_cases c3 : opcode = 2
        · rw [if_pos c3] at hx
          exact Option.noConfusion hx
        · rw [if_neg c3] at hx
          exact Option.noConfusion hx
  · rw [if_neg hfin] at hx
    by_cases d1 : opcode = 0 ∧ fm.is_empty = true
    · rw [if_pos d1] at hx
      exact Option.noConfusion hx
    · rw [if_neg d1] at hx
      by_cases d2 : opcode = 0 ∧ fm.invalid = true
      · rw [if_pos d2] at hx
        exact Option.noConfusion hx
      · rw [if_neg d2] at hx
        by_cases d3 : opcode = 0
        · rw [if_pos d3] at hx
          exact Option.noConfusion hx
        · rw [if_neg d3] at hx
          by_cases d4 : (opcode = 1 ∨ opcode = 2) ∧ (!fm.is_empty) = true
          · rw [if_pos d4] at hx
            exact Option.noConfusion hx
          · rw [if_neg d4] at hx
            by_cases d5 : opcode = 1
            · rw [if_pos d5] at hx
              by_cases d5u : utf8Valid message = true
              · rw [if_pos d5u] at hx
                exact Option.noConfusion hx
              · rw [if_neg d5u] at hx
                exact Option.noConfusion hx
            · rw [if_neg d5] at hx
              by_cases d6 : opcode = 2
              · rw [if_pos d6] at hx
                exact Option.noConfusion hx
              · rw [if_neg d6] at hx
                by_cases d7 : opcode = 8 ∧ payload_length = 0
                · rw [if_pos d7] at hx
                  exact Option.noConfusion hx
                · rw [if_neg d7] at hx
                  by_cases d8 : opcode = 8 ∧ 2 ≤ payload_length ∧ payload_length ≤ 125
                  · rw [if_pos d8] at hx
                    exact parse_close_frame_ne_none message (by omega)
                      (Option.map_eq_none'.mp hx)
                  · rw [if_neg d8] at hx
                    by_cases d9 : opcode = 9 ∧ payload_length ≤ 125
                    · rw [if_pos d9] at hx
                      exact Option.noConfusion hx
                    · rw [if_neg d9] at hx
                      by_cases d10 : opcode = 10
                      · rw [if_pos d10] at hx
                        exact Option.noConfusion hx
                      · rw [if_neg d10] at hx
                        exact Option.noConfusion hx

/-- C8: `parse` never panics or aborts on any input buffer and tracker
state: it always returns either an I/O error (truncated input) or a decoded
logical unit; the two-byte indexing inside the close-frame validator is
unreachable with a payload shorter than 2 bytes. -/
theorem c8_parse_never_panics (src : List Nat) (fm : FragmentedMessage) :
    Frame.parse src fm ≠ none := by
  unfold Frame.parse
  split
  · simp
  · split
    · simp
    · dsimp only
      split_ifs
      · simp
      · split
        · simp
        · split
          · simp
          · split
            · simp
            · rename_i message src5 heq
              have hlen := decoded_message_length _ _ _ _ _ heq
              simp only [ne_eq, Option.map_eq_none']
              exact parse_dispatch_ne_none _ _ _ _ _ (by omega)

/-- C9: the encoder returns `None` exactly for `Continuation(None)` and
`Pong`, and for every other logical unit it returns `Some` non-empty byte
sequence. -/
theorem c9_response_none_iff (f : Frame) :
    (Frame.response f = none ↔
      f = .Continuation none ∨ ∃ b, f = .Pong b) ∧
    (∀ bs, Frame.response f = some bs → bs ≠ []) := by
  cases f with
  | Continuation m =>
    cases m with
    | none => simp [Frame.response, Frame.response_bytes]
    | some fm =>
      cases fm <;>
        simp [Frame.response, Frame.response_bytes, FragmentedMessage.response]
  | Text message => simp [Frame.response, Frame.response_bytes]
  | Binary message => simp [Frame.response, Frame.response_bytes]
  | Close status_code => simp [Frame.response, Frame.response_bytes]
  | Ping message => simp [Frame.response, Frame.response_bytes]
  | Pong message => simp [Frame.response, Frame.response_bytes]

/-- C9 witness: `Continuation(None)` produces no bytes; the encoding of the
text "h" is the non-empty [0x81, 1, 104]. -/
theorem c9_response_none_iff_witness :
    Frame.response (.Continuation none) = none ∧
    ([0x81, 1, 104] : List Nat) ≠ [] :=
  ⟨(c9_response_none_iff (.Continuation none)).1.mpr (Or.inl rfl),
   (c9_response_none_iff (.Text [104])).2 [0x81, 1, 104] rfl⟩

end WS
